import Mathlib

/-!
Shallow embedding of `pyprojectutils` (files `library/projects.py`,
`library/releases.py`, `constants.py`).  Filesystem access and the two
external collaborator modules (`config.py`, `packaging.py`, the `semver`
library) are modelled as explicit state: an `FS` record carries every
observation the code makes of the outside world.
-/

/-- Source `os.path.join(a, b)` for the plain relative paths used in the source. -/
def joinPath (a b : String) : String := a ++ "/" ++ b

/-- Python `str.strip()`: drop whitespace from both ends.  (Defined by
structural recursion over the character list so that it computes.) -/
def pyStrip (s : String) : String :=
  ⟨((s.data.dropWhile Char.isWhitespace).reverse.dropWhile Char.isWhitespace).reverse⟩

/-- Python `str.lower()`. -/
def pyLower (s : String) : String :=
  ⟨s.data.map Char.toLower⟩

/-- Python `str.replace(old, new)` for the one-character patterns and
replacements the source uses (replacing a single character is a
per-character map). -/
def replaceChar (s : String) (pat rep : Char) : String :=
  ⟨s.data.map (fun ch => if ch = pat then rep else ch)⟩

/-- Modelled from the spec: a named config section is an attribute bag;
only its optional `code` attribute is ever read (by `Project._get_org`),
so the model keeps just that attribute.  `code = none` means the section
has no `code` attribute (Python raises `AttributeError`). -/
structure ConfigSection where
  code : Option String
deriving DecidableEq

/-- Modelled from the spec: the parsed contents of a `project.ini` file as
exposed by the Config Loader collaborator (`library/config.py`, which is
not part of the sources here).  The loader flattens the `project`
section's keys onto the Project itself and attaches other sections
(`client`, `business`) as section objects; the model keeps the keys the
code reads.  A field is `none` when the key/section is absent. -/
structure ProjectIni where
  title : Option String
  description : Option String
  status : Option String
  type : Option String
  tags : Option (List String)
  client : Option ConfigSection
  business : Option ConfigSection
deriving DecidableEq

/-- Modelled from the spec: the Package Config Reader collaborator
(`library/packaging.py`, not part of the sources here): `load() -> bool`
and `get_packages(env)` returning the package list for an environment
(`none` meaning all packages, as when `env` is unspecified). -/
structure PackageConfigData where
  loadOk : Bool
  getPackages : Option String → List String

/-- The outside world as observed by the code: which paths exist, which
are directories, directory listings, file contents, parsed `project.ini`
files, parsed package manifests, the result of the git porcelain
cleanliness test, and the output of the `du` disk-usage command. -/
structure FS where
  existing : List String
  dirs : List String
  listdir : String → List String
  readFile : String → String
  projectIni : String → Option ProjectIni
  pkgConfig : String → PackageConfigData
  gitPorcelainEmpty : String → Bool
  du : String → String

/-- Source `os.path.exists`. -/
def FS.pathExists (fs : FS) (p : String) : Bool := fs.existing.contains p

/-- Source `os.path.isdir`. -/
def FS.isDir (fs : FS) (p : String) : Bool := fs.dirs.contains p

/-- Source `ENVIRONMENTS` from `constants.py`. -/
def ENVIRONMENTS : List String :=
  ["base", "control", "development", "testing", "staging", "live"]

/-- The `Project` object: the attributes set in `Project.__init__` plus
the `client`/`business` section attributes the Config Loader may attach
(`none` = attribute not set).  `scm`, `title`, `description`, `is_dirty`
start as Python `None`, hence `Option`. -/
@[ext]
structure Project where
  config_exists : Bool
  description : Option String
  disk : String
  is_dirty : Option Bool
  is_loaded : Bool
  name : String
  org : String
  root : String
  scm : Option String
  status : String
  tags : List String
  title : Option String
  type : String
  version : String
  client : Option ConfigSection
  business : Option ConfigSection
deriving DecidableEq

/-- Source `Project.__init__(name, root)`: the field defaults, with
`config_exists` set from the existence of `<root>/project.ini`. -/
def Project.init (fs : FS) (name root : String) : Project :=
  { config_exists := fs.pathExists (joinPath root "project.ini")
    description := none
    disk := "TBD"
    is_dirty := none
    is_loaded := false
    name := name
    org := "Unknown"
    root := root
    scm := none
    status := "unknown"
    tags := []
    title := none
    type := "project"
    version := "0.1.0-d"
    client := none
    business := none }

/-- Python truthiness test `not x` for an optional string (`None` and the
empty string are falsy). -/
def optFalsy (o : Option String) : Bool :=
  match o with
  | none => true
  | some s => s.data.isEmpty

/-- Modelled from the spec: `Config.load` (the Config Loader collaborator,
`library/config.py`, not in the sources): when the config file exists and
parses, it flattens the `project` section keys onto the instance (via the
overridden `Project._load_section`), attaches the other sections, and sets
`is_loaded = True`; when the file is missing or does not parse it reports
failure and leaves every attribute unchanged. -/
def configLoad (fs : FS) (p : Project) : Project :=
  if fs.pathExists (joinPath p.root "project.ini") then
    match fs.projectIni (joinPath p.root "project.ini") with
    | some ini =>
      { p with
        title := match ini.title with | some t => some t | none => p.title
        description := match ini.description with | some d => some d | none => p.description
        status := match ini.status with | some s => s | none => p.status
        type := match ini.type with | some t => t | none => p.type
        tags := match ini.tags with | some t => t | none => p.tags
        client := ini.client
        business := ini.business
        is_loaded := true }
    | none => p
  else p

/-- Source `Project._file_exists(name)` (the `root` guard never fires: every
caller constructs the project with a root). -/
def Project.fileExists (fs : FS) (p : Project) (name : String) : Bool :=
  fs.pathExists (joinPath p.root name)

/-- Source `Project._get_path(name)`. -/
def Project.getPath (p : Project) (name : String) : String :=
  joinPath p.root name

/-- Source `Project._get_org`: client section first, then business, each falling
back when the section lacks a `code` attribute. -/
def Project.getOrg (p : Project) : String :=
  match p.client with
  | some obj =>
    match obj.code with
    | some c => c
    | none => "Unidentified"
  | none =>
    match p.business with
    | some obj =>
      match obj.code with
      | some c => c
      | none => "Internal"
    | none => "Unknown"

/-- Source `Project._get_scm`: returns the SCM label and (for git only) the
project with `is_dirty` set from the porcelain-emptiness test
(`status >= 1`, i.e. non-empty porcelain output, means dirty). -/
def Project.getScm (fs : FS) (p : Project) : String × Project :=
  if p.fileExists fs ".git" then
    ("git", { p with is_dirty := some (!fs.gitPorcelainEmpty p.root) })
  else if p.fileExists fs ".hg" then
    ("hg", p)
  else if p.fileExists fs "trunk" then
    ("svn", p)
  else
    ("None", p)

/-- Source `Project._get_version`: trimmed `VERSION.txt` contents, else the
default. -/
def Project.getVersion (fs : FS) (p : Project) : String :=
  if p.fileExists fs "VERSION.txt" then
    pyStrip (fs.readFile (p.getPath "VERSION.txt"))
  else
    "0.1.0-d"

/-- Source `Project._get_disk`: stripped output of the `du` shell pipeline. -/
def Project.getDisk (fs : FS) (p : Project) : String :=
  pyStrip (fs.du p.root)

/-- The `if not self.title: self.title = self.name` step of
`Project.load`. -/
def Project.applyTitleFallback (p : Project) : Project :=
  if optFalsy p.title then { p with title := some p.name } else p

/-- Source `Project.load(include_disk)`: early out when `root` does not exist,
otherwise config load, title fallback, org/scm/version resolution and
optional disk usage, returning `self.is_loaded` together with the updated
object. -/
def Project.load (fs : FS) (p : Project) (include_disk : Bool) : Bool × Project :=
  if !fs.pathExists p.root then
    (false, { p with is_loaded := false })
  else
    let p1 := configLoad fs p
    let p2 := p1.applyTitleFallback
    let p3 := { p2 with org := p2.getOrg }
    let scmPair := p3.getScm fs
    let p4 := { scmPair.2 with scm := some (pyStrip scmPair.1) }
    let p5 := { p4 with version := p4.getVersion fs }
    let p6 := if include_disk then { p5 with disk := p5.getDisk fs } else p5
    (p6.is_loaded, p6)

/-- The candidate manifest locations shared by `Project.get_dependencies`
and `Project.get_requirements`. -/
def depLocations : List String :=
  [joinPath "deploy" (joinPath "requirements" "packages.ini"),
   "requirements/packages.ini",
   "requirements.ini"]

/-- The `for i in locations` loop of `Project.get_dependencies`: for each
candidate that exists (no early exit in the source), load its package
config and append one `(env, packages)` pair per environment. -/
def get_dependencies_go (fs : FS) (p : Project) : List String → List (String × List String)
  | [] => []
  | i :: rest =>
    if p.fileExists fs i then
      (ENVIRONMENTS.map fun env =>
        (env, (fs.pkgConfig (joinPath p.root i)).getPackages (some env)))
        ++ get_dependencies_go fs p rest
    else
      get_dependencies_go fs p rest

/-- Source `Project.get_dependencies()`. -/
def Project.get_dependencies (fs : FS) (p : Project) : List (String × List String) :=
  get_dependencies_go fs p depLocations

/-- The `for i in locations` loop of `Project.get_requirements`: return
the packages of the first candidate that exists and whose package config
loads; when an existing candidate fails to load, the loop goes on. -/
def get_requirements_go (fs : FS) (p : Project) (env : Option String) :
    List String → Option (List String)
  | [] => none
  | i :: rest =>
    if p.fileExists fs i then
      let config := fs.pkgConfig (joinPath p.root i)
      if config.loadOk then some (config.getPackages env)
      else get_requirements_go fs p env rest
    else
      get_requirements_go fs p env rest

/-- Source `Project.get_requirements(env=None)`. -/
def Project.get_requirements (fs : FS) (p : Project) (env : Option String) :
    Option (List String) :=
  get_requirements_go fs p env depLocations

/-- The `for name in names` loop of `autoload_project`: the first
candidate whose path exists is constructed, loaded and returned. -/
def autoload_go (fs : FS) (include_disk : Bool) (path : String) :
    List String → Option Project
  | [] => none
  | n :: rest =>
    let root_path := joinPath path n
    if fs.pathExists root_path then
      some ((Project.init fs n root_path).load fs include_disk).2
    else
      autoload_go fs include_disk path rest

/-- Source `autoload_project(name, include_disk, path)`: lowercase the name and
try the four candidate directory names in order. -/
def autoload_project (fs : FS) (name : String) (include_disk : Bool) (path : String) :
    Option Project :=
  let n := pyLower name
  autoload_go fs include_disk path
    [n, replaceChar n '.' '_', replaceChar n ' ' '-', replaceChar n ' ' '_']

/-- A runtime Python value, as compared by `search == value` in
`get_projects`. -/
inductive PyVal where
  | pyNone : PyVal
  | pyBool : Bool → PyVal
  | pyStr : String → PyVal
  | pyList : List String → PyVal
deriving DecidableEq

/-- A Python-`None`-able string attribute as a runtime value. -/
def optStrVal : Option String → PyVal
  | some s => .pyStr s
  | none => .pyNone

/-- A Python-`None`-able boolean attribute as a runtime value. -/
def optBoolVal : Option Bool → PyVal
  | some b => .pyBool b
  | none => .pyNone

/-- Source `getattr(project, field)` over the fields a `Project` carries
(`none` when the attribute does not exist, where Python would raise
`AttributeError`). -/
def Project.getattr (p : Project) (field : String) : Option PyVal :=
  if field = "config_exists" then some (.pyBool p.config_exists)
  else if field = "description" then some (optStrVal p.description)
  else if field = "disk" then some (.pyStr p.disk)
  else if field = "is_dirty" then some (optBoolVal p.is_dirty)
  else if field = "is_loaded" then some (.pyBool p.is_loaded)
  else if field = "name" then some (.pyStr p.name)
  else if field = "org" then some (.pyStr p.org)
  else if field = "root" then some (.pyStr p.root)
  else if field = "scm" then some (optStrVal p.scm)
  else if field = "status" then some (.pyStr p.status)
  else if field = "tags" then some (.pyList p.tags)
  else if field = "title" then some (optStrVal p.title)
  else if field = "type" then some (.pyStr p.type)
  else if field = "version" then some (.pyStr p.version)
  else none

/-- The attribute names `Project.getattr` resolves; criteria over other
names would make the Python original raise `AttributeError`. -/
def validFields : List String :=
  ["config_exists", "description", "disk", "is_dirty", "is_loaded", "name",
   "org", "root", "scm", "status", "tags", "title", "type", "version"]

/-- The `for project_name in entries` loop of `get_projects`, carrying the
`names` and `projects` accumulators of the source (`names` is never
appended to in the source, so its membership test never fires). -/
def get_projects_go (fs : FS) (path : String) (criteria : List (String × PyVal))
    (include_disk show_all : Bool) :
    List String → List String → List Project → List Project
  | [], _, projects => projects
  | project_name :: rest, names, projects =>
    let project_root := joinPath path project_name
    if !fs.isDir project_root then
      get_projects_go fs path criteria include_disk show_all rest names projects
    else if names.contains project_name then
      get_projects_go fs path criteria include_disk show_all rest names projects
    else
      let project := ((Project.init fs project_name project_root).load fs include_disk).2
      if !project.config_exists && !show_all then
        get_projects_go fs path criteria include_disk show_all rest names projects
      else if criteria.isEmpty then
        get_projects_go fs path criteria include_disk show_all rest names
          (projects ++ [project])
      else
        get_projects_go fs path criteria include_disk show_all rest names
          (projects ++ (criteria.filter fun c => project.getattr c.1 == some c.2).map
            (fun _ => project))

/-- Source `get_projects(path, criteria, include_disk, show_all)`; the criteria
dict is modelled as an association list iterated in order. -/
def get_projects (fs : FS) (path : String) (criteria : List (String × PyVal))
    (include_disk show_all : Bool) : List Project :=
  get_projects_go fs path criteria include_disk show_all (fs.listdir path) [] []


/-- The components of a parsed semantic version, as exposed by the
third-party `semver` library's `parse_version_info`. -/
structure VersionInfo where
  major : Nat
  minor : Nat
  patch : Nat
  prerelease : Option String
  build : Option String
deriving DecidableEq

/-- Split a character list at every occurrence of a separator character
(the separators the semantic-version grammar uses are single
characters). -/
def splitCharAux (c : Char) : List Char → List Char → List String
  | [], acc => [⟨acc.reverse⟩]
  | ch :: rest, acc =>
    if ch = c then ⟨acc.reverse⟩ :: splitCharAux c rest []
    else splitCharAux c rest (ch :: acc)

/-- Split a string at every occurrence of a separator character. -/
def splitChar (c : Char) (s : String) : List String := splitCharAux c s.data []

/-- Join strings with a separator. -/
def joinWith (sep : String) : List String → String
  | [] => ""
  | [x] => x
  | x :: rest => x ++ sep ++ joinWith sep rest

/-- Digits to a number (callers guarantee every character is a digit). -/
def digitsToNat (l : List Char) : Nat :=
  l.foldl (fun n c => n * 10 + (c.toNat - 48)) 0

/-- A numeric identifier of the version core: digits only, no leading
zero. -/
def isNumericCore (s : String) : Bool :=
  match s.data with
  | [] => false
  | [c] => c.isDigit
  | c :: rest => c.isDigit && c ≠ '0' && rest.all Char.isDigit

/-- Characters allowed in prerelease/build identifiers of a semantic
version. -/
def isIdentChars (s : String) : Bool :=
  !s.data.isEmpty && s.data.all (fun ch => ch.isAlphanum || ch = '-' || ch = '.')

/-- A decimal rendering of a natural number (fuel-based so that it
computes in the kernel). -/
def natToStrAux : Nat → Nat → List Char
  | 0, _ => []
  | fuel + 1, n =>
    if n < 10 then [Char.ofNat (48 + n)]
    else natToStrAux fuel (n / 10) ++ [Char.ofNat (48 + n % 10)]

/-- A decimal rendering of a natural number. -/
def natToStr (n : Nat) : String := ⟨natToStrAux (n + 1) n⟩

/-- The version-core half of `semver` parsing: `major.minor.patch` with
an optional `-prerelease` cut at the first `-` after the core (the
prerelease may itself contain `-`). -/
def parseVersionCore (left : String) (build : Option String) : Option VersionInfo :=
  match splitChar '-' left with
  | [] => none
  | core :: preParts =>
    let pre : Option String :=
      match preParts with
      | [] => none
      | parts => some (joinWith "-" parts)
    match splitChar '.' core with
    | [ma, mi, pa] =>
      if isNumericCore ma && isNumericCore mi && isNumericCore pa then
        match pre with
        | some p => if isIdentChars p then
            some ⟨digitsToNat ma.data, digitsToNat mi.data, digitsToNat pa.data, some p, build⟩
          else none
        | none =>
          some ⟨digitsToNat ma.data, digitsToNat mi.data, digitsToNat pa.data, none, build⟩
      else none
    | _ => none

/-- Modelled from the spec: `semver.parse_version_info` of the
third-party `semver` library: `major.minor.patch` with an optional
`-prerelease` (cut at the first `-` after the core; the prerelease may
itself contain `-`) and an optional `+build` suffix; `none` on a
malformed string (the library raises `ValueError`). -/
def parseVersionInfo (s : String) : Option VersionInfo :=
  match splitChar '+' s with
  | [left] => parseVersionCore left none
  | [left, build] => if isIdentChars build then parseVersionCore left (some build) else none
  | _ => none

/-- Modelled from the spec: `semver.bump_major`: parse and re-format with
the major position incremented (prerelease and build dropped). -/
def semverBumpMajor (s : String) : Option String :=
  (parseVersionInfo s).map fun v => natToStr (v.major + 1) ++ ".0.0"

/-- Modelled from the spec: `semver.bump_minor`. -/
def semverBumpMinor (s : String) : Option String :=
  (parseVersionInfo s).map fun v =>
    natToStr v.major ++ "." ++ natToStr (v.minor + 1) ++ ".0"

/-- Modelled from the spec: `semver.bump_patch`. -/
def semverBumpPatch (s : String) : Option String :=
  (parseVersionInfo s).map fun v =>
    natToStr v.major ++ "." ++ natToStr v.minor ++ "." ++ natToStr (v.patch + 1)

/-- Python truthiness of the optional string arguments of
`Version.bump` (`None` and `""` are falsy). -/
def strOptTruthy (o : Option String) : Bool :=
  match o with
  | none => false
  | some s => !s.data.isEmpty

/-- The `Version` object of `library/releases.py`: `curr` and `orig`
model `self._current` and `self._original`; `object` is the parsed
info. -/
structure Version where
  curr : Option String
  orig : String
  object : VersionInfo
deriving DecidableEq

/-- Source `Version.__init__(string)`: parses the string (`none` models the
`ParseError` the constructor surfaces on malformed input). -/
def Version.init (s : String) : Option Version :=
  (parseVersionInfo s).map fun o => { curr := none, orig := s, object := o }

/-- Source `Version.to_string`: `self._current or self._original`. -/
def Version.toStr (v : Version) : String :=
  match v.curr with
  | some c => if c.data.isEmpty then v.orig else c
  | none => v.orig

/-- The `# Set the status.` block of `Version.bump`: append the given
status, else re-append the already-parsed prerelease, else leave the
string alone. -/
def applyStatus (cur : String) (status : Option String) (obj : VersionInfo) : String :=
  if strOptTruthy status then cur ++ "-" ++ status.getD ""
  else if strOptTruthy obj.prerelease then cur ++ "-" ++ obj.prerelease.getD ""
  else cur

/-- The `# Set the build.` block of `Version.bump`. -/
def applyBuild (cur : String) (build : Option String) (obj : VersionInfo) : String :=
  if strOptTruthy build then cur ++ "+" ++ build.getD ""
  else if strOptTruthy obj.build then cur ++ "+" ++ obj.build.getD ""
  else cur

/-- Source `Version.bump(major, minor, patch, status, build)`: pick the bumped
core (mutually exclusive, `major` first), append status/build suffixes,
re-parse; `none` models the `ParseError`/`ValueError` paths. -/
def Version.bump (v : Version) (major minor patch : Bool) (status build : Option String) :
    Option Version :=
  let c0 : Option String :=
    if major then semverBumpMajor v.orig
    else if minor then semverBumpMinor v.orig
    else if patch then semverBumpPatch v.orig
    else some v.orig
  match c0 with
  | none => none
  | some cur =>
    let cur := applyStatus cur status v.object
    let cur := applyBuild cur build v.object
    match parseVersionInfo cur with
    | none => none
    | some o => some { curr := some cur, orig := v.orig, object := o }




/-- The org value determined by optional client/business sections (the
decision tree of `Project._get_org`, expressed over the two section
values). -/
def orgOf (client business : Option ConfigSection) : String :=
  match client with
  | some obj =>
    match obj.code with
    | some c => c
    | none => "Unidentified"
  | none =>
    match business with
    | some obj =>
      match obj.code with
      | some c => c
      | none => "Internal"
    | none => "Unknown"

/-- The `project.ini` contents `configLoad` will see for a given root:
the parse result when the file exists, nothing otherwise. -/
def iniOf (fs : FS) (root : String) : Option ProjectIni :=
  if fs.pathExists (joinPath root "project.ini") then fs.projectIni (joinPath root "project.ini")
  else none

/-- The result of a successful `Project.load` (root exists), written as a
single record: every field as a function of the initial fields and the
filesystem. -/
def loadedForm (fs : FS) (include_disk : Bool) (p : Project) : Project :=
  let ini := iniOf fs p.root
  let title1 : Option String :=
    match ini with
    | some i => (match i.title with | some t => some t | none => p.title)
    | none => p.title
  let client1 : Option ConfigSection :=
    match ini with | some i => i.client | none => p.client
  let business1 : Option ConfigSection :=
    match ini with | some i => i.business | none => p.business
  let hasGit := fs.pathExists (joinPath p.root ".git")
  let hasHg := fs.pathExists (joinPath p.root ".hg")
  let hasTrunk := fs.pathExists (joinPath p.root "trunk")
  { config_exists := p.config_exists
    description :=
      match ini with
      | some i => (match i.description with | some d => some d | none => p.description)
      | none => p.description
    disk := if include_disk then pyStrip (fs.du p.root) else p.disk
    is_dirty := if hasGit then some (!fs.gitPorcelainEmpty p.root) else p.is_dirty
    is_loaded := match ini with | some _ => true | none => p.is_loaded
    name := p.name
    org := orgOf client1 business1
    root := p.root
    scm := some (pyStrip (if hasGit then "git" else if hasHg then "hg"
      else if hasTrunk then "svn" else "None"))
    status :=
      match ini with
      | some i => (match i.status with | some s => s | none => p.status)
      | none => p.status
    tags :=
      match ini with
      | some i => (match i.tags with | some t => t | none => p.tags)
      | none => p.tags
    title := if optFalsy title1 then some p.name else title1
    type :=
      match ini with
      | some i => (match i.type with | some t => t | none => p.type)
      | none => p.type
    version :=
      if fs.pathExists (joinPath p.root "VERSION.txt") then
        pyStrip (fs.readFile (joinPath p.root "VERSION.txt"))
      else "0.1.0-d"
    client := client1
    business := business1 }

theorem configLoad_config_exists (fs : FS) (p : Project) : (configLoad fs p).config_exists = p.config_exists := by
  unfold configLoad
  split
  · split <;> rfl
  · rfl

theorem configLoad_disk (fs : FS) (p : Project) : (configLoad fs p).disk = p.disk := by
  unfold configLoad
  split
  · split <;> rfl
  · rfl

theorem configLoad_is_dirty (fs : FS) (p : Project) : (configLoad fs p).is_dirty = p.is_dirty := by
  unfold configLoad
  split
  · split <;> rfl
  · rfl

theorem configLoad_name (fs : FS) (p : Project) : (configLoad fs p).name = p.name := by
  unfold configLoad
  split
  · split <;> rfl
  · rfl

theorem configLoad_org (fs : FS) (p : Project) : (configLoad fs p).org = p.org := by
  unfold configLoad
  split
  · split <;> rfl
  · rfl

theorem configLoad_root (fs : FS) (p : Project) : (configLoad fs p).root = p.root := by
  unfold configLoad
  split
  · split <;> rfl
  · rfl

theorem configLoad_scm (fs : FS) (p : Project) : (configLoad fs p).scm = p.scm := by
  unfold configLoad
  split
  · split <;> rfl
  · rfl

theorem configLoad_version (fs : FS) (p : Project) : (configLoad fs p).version = p.version := by
  unfold configLoad
  split
  · split <;> rfl
  · rfl

theorem configLoad_title (fs : FS) (p : Project) :
    (configLoad fs p).title =
      (match iniOf fs p.root with
       | some i => (match i.title with | some t => some t | none => p.title)
       | none => p.title) := by
  unfold configLoad iniOf
  split
  · split <;> rfl
  · rfl

theorem configLoad_description (fs : FS) (p : Project) :
    (configLoad fs p).description =
      (match iniOf fs p.root with
       | some i => (match i.description with | some d => some d | none => p.description)
       | none => p.description) := by
  unfold configLoad iniOf
  split
  · split <;> rfl
  · rfl

theorem configLoad_status (fs : FS) (p : Project) :
    (configLoad fs p).status =
      (match iniOf fs p.root with
       | some i => (match i.status with | some s => s | none => p.status)
       | none => p.status) := by
  unfold configLoad iniOf
  split
  · split <;> rfl
  · rfl

theorem configLoad_type (fs : FS) (p : Project) :
    (configLoad fs p).type =
      (match iniOf fs p.root with
       | some i => (match i.type with | some t => t | none => p.type)
       | none => p.type) := by
  unfold configLoad iniOf
  split
  · split <;> rfl
  · rfl

theorem configLoad_tags (fs : FS) (p : Project) :
    (configLoad fs p).tags =
      (match iniOf fs p.root with
       | some i => (match i.tags with | some t => t | none => p.tags)
       | none => p.tags) := by
  unfold configLoad iniOf
  split
  · split <;> rfl
  · rfl

theorem configLoad_client (fs : FS) (p : Project) :
    (configLoad fs p).client =
      (match iniOf fs p.root with
       | some i => i.client
       | none => p.client) := by
  unfold configLoad iniOf
  split
  · split <;> rfl
  · rfl

theorem configLoad_business (fs : FS) (p : Project) :
    (configLoad fs p).business =
      (match iniOf fs p.root with
       | some i => i.business
       | none => p.business) := by
  unfold configLoad iniOf
  split
  · split <;> rfl
  · rfl

theorem configLoad_is_loaded (fs : FS) (p : Project) :
    (configLoad fs p).is_loaded =
      (match iniOf fs p.root with
       | some _ => true
       | none => p.is_loaded) := by
  unfold configLoad iniOf
  split
  · split <;> rfl
  · rfl

theorem applyTitleFallback_config_exists (p : Project) :
    p.applyTitleFallback.config_exists = p.config_exists := by
  unfold Project.applyTitleFallback
  split <;> rfl

theorem applyTitleFallback_description (p : Project) :
    p.applyTitleFallback.description = p.description := by
  unfold Project.applyTitleFallback
  split <;> rfl

theorem applyTitleFallback_disk (p : Project) :
    p.applyTitleFallback.disk = p.disk := by
  unfold Project.applyTitleFallback
  split <;> rfl

theorem applyTitleFallback_is_dirty (p : Project) :
    p.applyTitleFallback.is_dirty = p.is_dirty := by
  unfold Project.applyTitleFallback
  split <;> rfl

theorem applyTitleFallback_is_loaded (p : Project) :
    p.applyTitleFallback.is_loaded = p.is_loaded := by
  unfold Project.applyTitleFallback
  split <;> rfl

theorem applyTitleFallback_name (p : Project) :
    p.applyTitleFallback.name = p.name := by
  unfold Project.applyTitleFallback
  split <;> rfl

theorem applyTitleFallback_org (p : Project) :
    p.applyTitleFallback.org = p.org := by
  unfold Project.applyTitleFallback
  split <;> rfl

theorem applyTitleFallback_root (p : Project) :
    p.applyTitleFallback.root = p.root := by
  unfold Project.applyTitleFallback
  split <;> rfl

theorem applyTitleFallback_scm (p : Project) :
    p.applyTitleFallback.scm = p.scm := by
  unfold Project.applyTitleFallback
  split <;> rfl

theorem applyTitleFallback_status (p : Project) :
    p.applyTitleFallback.status = p.status := by
  unfold Project.applyTitleFallback
  split <;> rfl

theorem applyTitleFallback_tags (p : Project) :
    p.applyTitleFallback.tags = p.tags := by
  unfold Project.applyTitleFallback
  split <;> rfl

theorem applyTitleFallback_type (p : Project) :
    p.applyTitleFallback.type = p.type := by
  unfold Project.applyTitleFallback
  split <;> rfl

theorem applyTitleFallback_version (p : Project) :
    p.applyTitleFallback.version = p.version := by
  unfold Project.applyTitleFallback
  split <;> rfl

theorem applyTitleFallback_client (p : Project) :
    p.applyTitleFallback.client = p.client := by
  unfold Project.applyTitleFallback
  split <;> rfl

theorem applyTitleFallback_business (p : Project) :
    p.applyTitleFallback.business = p.business := by
  unfold Project.applyTitleFallback
  split <;> rfl

theorem applyTitleFallback_title (p : Project) :
    p.applyTitleFallback.title = if optFalsy p.title then some p.name else p.title := by
  unfold Project.applyTitleFallback
  split <;> simp_all

theorem getScm_snd_config_exists (fs : FS) (p : Project) :
    (Project.getScm fs p).2.config_exists = p.config_exists := by
  unfold Project.getScm
  split
  · rfl
  · split
    · rfl
    · split <;> rfl

theorem getScm_snd_description (fs : FS) (p : Project) :
    (Project.getScm fs p).2.description = p.description := by
  unfold Project.getScm
  split
  · rfl
  · split
    · rfl
    · split <;> rfl

theorem getScm_snd_disk (fs : FS) (p : Project) :
    (Project.getScm fs p).2.disk = p.disk := by
  unfold Project.getScm
  split
  · rfl
  · split
    · rfl
    · split <;> rfl

theorem getScm_snd_is_loaded (fs : FS) (p : Project) :
    (Project.getScm fs p).2.is_loaded = p.is_loaded := by
  unfold Project.getScm
  split
  · rfl
  · split
    · rfl
    · split <;> rfl

theorem getScm_snd_name (fs : FS) (p : Project) :
    (Project.getScm fs p).2.name = p.name := by
  unfold Project.getScm
  split
  · rfl
  · split
    · rfl
    · split <;> rfl

theorem getScm_snd_org (fs : FS) (p : Project) :
    (Project.getScm fs p).2.org = p.org := by
  unfold Project.getScm
  split
  · rfl
  · split
    · rfl
    · split <;> rfl

theorem getScm_snd_root (fs : FS) (p : Project) :
    (Project.getScm fs p).2.root = p.root := by
  unfold Project.getScm
  split
  · rfl
  · split
    · rfl
    · split <;> rfl

theorem getScm_snd_scm (fs : FS) (p : Project) :
    (Project.getScm fs p).2.scm = p.scm := by
  unfold Project.getScm
  split
  · rfl
  · split
    · rfl
    · split <;> rfl

theorem getScm_snd_status (fs : FS) (p : Project) :
    (Project.getScm fs p).2.status = p.status := by
  unfold Project.getScm
  split
  · rfl
  · split
    · rfl
    · split <;> rfl

theorem getScm_snd_tags (fs : FS) (p : Project) :
    (Project.getScm fs p).2.tags = p.tags := by
  unfold Project.getScm
  split
  · rfl
  · split
    · rfl
    · split <;> rfl

theorem getScm_snd_title (fs : FS) (p : Project) :
    (Project.getScm fs p).2.title = p.title := by
  unfold Project.getScm
  split
  · rfl
  · split
    · rfl
    · split <;> rfl

theorem getScm_snd_type (fs : FS) (p : Project) :
    (Project.getScm fs p).2.type = p.type := by
  unfold Project.getScm
  split
  · rfl
  · split
    · rfl
    · split <;> rfl

theorem getScm_snd_version (fs : FS) (p : Project) :
    (Project.getScm fs p).2.version = p.version := by
  unfold Project.getScm
  split
  · rfl
  · split
    · rfl
    · split <;> rfl

theorem getScm_snd_client (fs : FS) (p : Project) :
    (Project.getScm fs p).2.client = p.client := by
  unfold Project.getScm
  split
  · rfl
  · split
    · rfl
    · split <;> rfl

theorem getScm_snd_business (fs : FS) (p : Project) :
    (Project.getScm fs p).2.business = p.business := by
  unfold Project.getScm
  split
  · rfl
  · split
    · rfl
    · split <;> rfl

theorem getScm_snd_is_dirty (fs : FS) (p : Project) :
    (Project.getScm fs p).2.is_dirty =
      (if Project.fileExists fs p ".git" then some (!fs.gitPorcelainEmpty p.root)
       else p.is_dirty) := by
  unfold Project.getScm
  split
  · simp_all
  · split
    · simp_all
    · split <;> simp_all

theorem getScm_fst (fs : FS) (p : Project) :
    (Project.getScm fs p).1 =
      (if Project.fileExists fs p ".git" then "git"
       else if Project.fileExists fs p ".hg" then "hg"
       else if Project.fileExists fs p "trunk" then "svn"
       else "None") := by
  unfold Project.getScm
  split
  · simp_all
  · split
    · simp_all
    · split <;> simp_all

theorem getOrg_eq (p : Project) : p.getOrg = orgOf p.client p.business := rfl

theorem load_fst (fs : FS) (p : Project) (i : Bool) :
    (Project.load fs p i).1 = (Project.load fs p i).2.is_loaded := by
  unfold Project.load
  split
  · rfl
  · split <;> rfl

theorem load_root_missing (fs : FS) (p : Project) (i : Bool)
    (h : fs.pathExists p.root = false) :
    Project.load fs p i = (false, { p with is_loaded := false }) := by
  unfold Project.load
  simp [h]

theorem load_snd_char (fs : FS) (i : Bool) (p : Project) (h : fs.pathExists p.root = true) :
    (Project.load fs p i).2 = loadedForm fs i p := by
  unfold Project.load
  simp only [h, Bool.not_true, Bool.false_eq_true, if_false]
  apply Project.ext <;>
  simp only [loadedForm, apply_ite Project.config_exists, apply_ite Project.description,
    apply_ite Project.disk, apply_ite Project.is_dirty, apply_ite Project.is_loaded,
    apply_ite Project.name, apply_ite Project.org, apply_ite Project.root,
    apply_ite Project.scm, apply_ite Project.status, apply_ite Project.tags,
    apply_ite Project.title, apply_ite Project.type, apply_ite Project.version,
    apply_ite Project.client, apply_ite Project.business, ite_self,
    configLoad_config_exists, configLoad_description, configLoad_disk, configLoad_is_dirty,
    configLoad_is_loaded, configLoad_name, configLoad_org, configLoad_root, configLoad_scm,
    configLoad_status, configLoad_tags, configLoad_title, configLoad_type, configLoad_version,
    configLoad_client, configLoad_business,
    applyTitleFallback_config_exists, applyTitleFallback_description, applyTitleFallback_disk,
    applyTitleFallback_is_dirty, applyTitleFallback_is_loaded, applyTitleFallback_name,
    applyTitleFallback_org, applyTitleFallback_root, applyTitleFallback_scm,
    applyTitleFallback_status, applyTitleFallback_tags, applyTitleFallback_title,
    applyTitleFallback_type, applyTitleFallback_version, applyTitleFallback_client,
    applyTitleFallback_business,
    getScm_snd_config_exists, getScm_snd_description, getScm_snd_disk, getScm_snd_is_dirty,
    getScm_snd_is_loaded, getScm_snd_name, getScm_snd_org, getScm_snd_root, getScm_snd_scm,
    getScm_snd_status, getScm_snd_tags, getScm_snd_title, getScm_snd_type, getScm_snd_version,
    getScm_snd_client, getScm_snd_business, getScm_fst, getOrg_eq,
    Project.getVersion, Project.getDisk, Project.getPath, Project.fileExists]

theorem load_char (fs : FS) (i : Bool) (p : Project) (h : fs.pathExists p.root = true) :
    Project.load fs p i = ((loadedForm fs i p).is_loaded, loadedForm fs i p) := by
  have h1 := load_fst fs p i
  have h2 := load_snd_char fs i p h
  rw [Prod.ext_iff]
  exact ⟨by rw [h1, h2], h2⟩

theorem get_requirements_go_eq (fs : FS) (p : Project) (env : Option String)
    (l : List String) :
    get_requirements_go fs p env l =
      (l.find? (fun i =>
          Project.fileExists fs p i && (fs.pkgConfig (joinPath p.root i)).loadOk)).map
        (fun i => (fs.pkgConfig (joinPath p.root i)).getPackages env) := by
  induction l with
  | nil => rfl
  | cons a as ih =>
    by_cases h1 : Project.fileExists fs p a <;>
    by_cases h2 : (fs.pkgConfig (joinPath p.root a)).loadOk <;>
    simp [get_requirements_go, List.find?, h1, h2, ih]

theorem get_dependencies_go_eq (fs : FS) (p : Project) (l : List String) :
    get_dependencies_go fs p l =
      ((l.filter (fun i => Project.fileExists fs p i)).map (fun i =>
        ENVIRONMENTS.map (fun env =>
          (env, (fs.pkgConfig (joinPath p.root i)).getPackages (some env))))).flatten := by
  induction l with
  | nil => rfl
  | cons a as ih =>
    by_cases h1 : Project.fileExists fs p a <;>
    simp [get_dependencies_go, List.filter, h1, ih]

theorem autoload_go_eq (fs : FS) (i : Bool) (path : String) (l : List String) :
    autoload_go fs i path l =
      (l.find? (fun c => fs.pathExists (joinPath path c))).map
        (fun c => ((Project.init fs c (joinPath path c)).load fs i).2) := by
  induction l with
  | nil => rfl
  | cons a as ih =>
    by_cases h1 : fs.pathExists (joinPath path a) <;>
    simp [autoload_go, List.find?, h1, ih]

/-- C2 (amended): `get_dependencies` appends, for each existing manifest
candidate in candidate order, one `(env, packages)` pair per environment
in the fixed order base, control, development, testing, staging, live
(empty package sequences included), so its length is six times the number
of existing candidates — in particular empty when no manifest exists, six
entries when exactly one exists, but more when several exist. -/
theorem C2_dependencies_per_manifest (fs : FS) (p : Project) :
    Project.get_dependencies fs p =
      ((depLocations.filter (fun i => Project.fileExists fs p i)).map (fun i =>
        ENVIRONMENTS.map (fun env =>
          (env, (fs.pkgConfig (joinPath p.root i)).getPackages (some env))))).flatten ∧
    (Project.get_dependencies fs p).length =
      6 * (depLocations.filter (fun i => Project.fileExists fs p i)).length := by
  refine ⟨get_dependencies_go_eq fs p depLocations, ?_⟩
  rw [Project.get_dependencies, get_dependencies_go_eq fs p depLocations]
  generalize (depLocations.filter (fun i => Project.fileExists fs p i)) = l
  induction l with
  | nil => rfl
  | cons a as ih =>
    simp only [List.map_cons, List.flatten_cons, List.length_append, List.length_map,
      List.length_cons, ih]
    have h6 : ENVIRONMENTS.length = 6 := rfl
    rw [h6]
    omega

/-- The filesystem of the C2 counterexample: a project whose tree carries
both a `deploy/requirements/packages.ini` and a `requirements.ini`. -/
def fsC2 : FS :=
  { existing := ["w/p", "w/p/deploy/requirements/packages.ini", "w/p/requirements.ini"]
    dirs := ["w/p"]
    listdir := fun _ => ["p"]
    readFile := fun _ => ""
    projectIni := fun _ => none
    pkgConfig := fun _ => ⟨true, fun _ => []⟩
    gitPorcelainEmpty := fun _ => true
    du := fun _ => "1M" }

/-- C2 counterexample: with two manifest candidates present,
`get_dependencies` returns 12 entries, not the 6 the claim promises for
"whenever at least one manifest file exists". -/
theorem C2_counterexample :
    (∃ i ∈ depLocations, Project.fileExists fsC2 (Project.init fsC2 "p" "w/p") i = true) ∧
    (Project.get_dependencies fsC2 (Project.init fsC2 "p" "w/p")).length = 12 ∧
    ¬(Project.get_dependencies fsC2 (Project.init fsC2 "p" "w/p")).length = 6 := by
  decide

/-- C8 (amended): `get_requirements` probes the candidate manifest paths
in their fixed order and uses the first one that exists *and whose
package config loads successfully* (an existing candidate that fails to
load is skipped), returning that manifest's packages for the specified
environment (all packages when none is specified, i.e. `env = none`),
and returns `None` when no candidate exists or none of the existing
candidates loads. -/
theorem C8_requirements_first_loadable (fs : FS) (p : Project) (env : Option String) :
    Project.get_requirements fs p env =
      (depLocations.find? (fun i =>
          Project.fileExists fs p i && (fs.pkgConfig (joinPath p.root i)).loadOk)).map
        (fun i => (fs.pkgConfig (joinPath p.root i)).getPackages env) :=
  get_requirements_go_eq fs p env depLocations

/-- The filesystem of the C8 counterexample: the first manifest candidate
exists but its package config fails to load; the last candidate exists
and loads. -/
def fsC8 : FS :=
  { existing := ["w/p", "w/p/deploy/requirements/packages.ini", "w/p/requirements.ini"]
    dirs := ["w/p"]
    listdir := fun _ => ["p"]
    readFile := fun _ => ""
    projectIni := fun _ => none
    pkgConfig := fun f =>
      if f = "w/p/deploy/requirements/packages.ini" then ⟨false, fun _ => ["y"]⟩
      else ⟨true, fun _ => ["x"]⟩
    gitPorcelainEmpty := fun _ => true
    du := fun _ => "1M" }

/-- C8 counterexample: the first existing candidate is
`deploy/requirements/packages.ini`, whose packages are `["y"]`, yet
`get_requirements` returns `["x"]` from `requirements.ini` because the
first candidate's config fails to load — the code does not use "the
first one that exists". -/
theorem C8_counterexample :
    (depLocations.find? (fun i => Project.fileExists fsC8 (Project.init fsC8 "p" "w/p") i) =
      some "deploy/requirements/packages.ini") ∧
    ((fsC8.pkgConfig "w/p/deploy/requirements/packages.ini").getPackages none = ["y"]) ∧
    (Project.get_requirements fsC8 (Project.init fsC8 "p" "w/p") none = some ["x"]) ∧
    ¬(Project.get_requirements fsC8 (Project.init fsC8 "p" "w/p") none = some ["y"]) := by
  decide

/-- C10: `autoload_project` lowercases the name, then tries exactly the
four candidate directory names — the lowercased name, dots replaced by
underscores, spaces by hyphens, spaces by underscores — in that order,
returning a loaded `Project` for the first candidate whose path exists
under the search path. -/
theorem C10_autoload_candidates (fs : FS) (nm : String) (i : Bool) (path : String) :
    autoload_project fs nm i path =
      (([pyLower nm, replaceChar (pyLower nm) '.' '_', replaceChar (pyLower nm) ' ' '-',
          replaceChar (pyLower nm) ' ' '_'].find?
            (fun c => fs.pathExists (joinPath path c))).map
        (fun c => ((Project.init fs c (joinPath path c)).load fs i).2)) := by
  rw [autoload_project]
  exact autoload_go_eq fs i path _

/-- C5: absence is never an exception: when a project's root does not
exist, `load` returns `false` with `is_loaded = false` (the model is a
total function, so no exception is possible); and when none of the four
candidate directories exists, `autoload_project` returns `none`. -/
theorem C5_absence_is_soft (fs : FS) (p : Project) (i i2 : Bool) (nm path : String) :
    (fs.pathExists p.root = false →
      Project.load fs p i = (false, { p with is_loaded := false }) ∧
      (Project.load fs p i).2.is_loaded = false) ∧
    ((∀ c ∈ [pyLower nm, replaceChar (pyLower nm) '.' '_',
        replaceChar (pyLower nm) ' ' '-', replaceChar (pyLower nm) ' ' '_'],
        fs.pathExists (joinPath path c) = false) →
      autoload_project fs nm i2 path = none) := by
  constructor
  · intro h
    refine ⟨load_root_missing fs p i h, ?_⟩
    rw [load_root_missing fs p i h]
  · intro h
    rw [autoload_project, autoload_go_eq]
    have h1 := h (pyLower nm) (by simp)
    have h2 := h (replaceChar (pyLower nm) '.' '_') (by simp)
    have h3 := h (replaceChar (pyLower nm) ' ' '-') (by simp)
    have h4 := h (replaceChar (pyLower nm) ' ' '_') (by simp)
    simp [List.find?, h1, h2, h3, h4]

/-- C7 (amended): the numeric positions of `Version.bump` are mutually
exclusive with priority major over minor over patch; when one of them is
set the version core is re-built and the prerelease/build labels are
reapplied or overridden; when *none* is set the original string is kept
and the status/build suffixes are appended to it — duplicating an
existing prerelease instead of reapplying it; the two scenario results
hold: `"1.2.3"` bumped minor gives `"1.3.0"` and `"1.2.3-beta"` bumped
patch gives `"1.2.4-beta"`. -/
theorem C7_bump_behaviour :
    (∀ (v : Version) (mi pa : Bool) (st bu : Option String),
      Version.bump v true mi pa st bu = Version.bump v true false false st bu) ∧
    (∀ (v : Version) (pa : Bool) (st bu : Option String),
      Version.bump v false true pa st bu = Version.bump v false true false st bu) ∧
    (∀ (v : Version) (st bu : Option String),
      Version.bump v false false false st bu =
        (parseVersionInfo (applyBuild (applyStatus v.orig st v.object) bu v.object)).map
          (fun o =>
            { curr := some (applyBuild (applyStatus v.orig st v.object) bu v.object),
              orig := v.orig, object := o })) ∧
    (((Version.init "1.2.3").bind fun v => Version.bump v false true false none none).map
      Version.toStr = some "1.3.0") ∧
    (((Version.init "1.2.3-beta").bind fun v => Version.bump v false false true none none).map
      Version.toStr = some "1.2.4-beta") := by
  refine ⟨fun v mi pa st bu => rfl, fun v pa st bu => rfl, fun v st bu => ?_, by decide, by decide⟩
  unfold Version.bump
  cases hp : parseVersionInfo (applyBuild (applyStatus v.orig st v.object) bu v.object) <;>
  simp [hp]

/-- C7 counterexample: with no numeric position specified and no
status/build override, the claim's "no numeric change, then reapplies the
existing prerelease" reading demands `"1.2.3-beta"`, but the code appends
the prerelease to the original string, producing `"1.2.3-beta-beta"`. -/
theorem C7_counterexample :
    (((Version.init "1.2.3-beta").bind fun v => Version.bump v false false false none none).map
      Version.toStr = some "1.2.3-beta-beta") ∧
    ((some "1.2.3-beta-beta" : Option String) ≠ some "1.2.3-beta") := by
  decide

theorem orgOf_spec (c b : Option ConfigSection) :
    orgOf c b =
      (match c with
       | some obj =>
         (match obj.code with
          | some x => x
          | none => "Unidentified")
       | none =>
         match b with
         | some obj =>
           (match obj.code with
            | some x => x
            | none => "Internal")
         | none => "Unknown") := rfl

/-- C3: for a loaded project, org resolution is the three-tier fallback:
a `client` section's `code` (or "Unidentified" when the section has no
`code`), else a `business` section's `code` (or "Internal"), else
"Unknown". -/
theorem C3_org_three_tier (fs : FS) (p : Project) (i : Bool)
    (h : fs.pathExists p.root = true) :
    (Project.load fs p i).2.org =
      (match (Project.load fs p i).2.client with
       | some obj =>
         (match obj.code with
          | some c => c
          | none => "Unidentified")
       | none =>
         match (Project.load fs p i).2.business with
         | some obj =>
           (match obj.code with
            | some c => c
            | none => "Internal")
         | none => "Unknown") := by
  rw [load_snd_char fs i p h]
  simp only [loadedForm]
  exact orgOf_spec _ _

/-- C4: SCM resolution on a freshly constructed and loaded project checks
`.git`, then `.hg`, then `trunk` under root, yielding the first match's
label ("None" when none exist); only the git case sets `is_dirty`, true
exactly when the porcelain output is non-empty; the other outcomes leave
`is_dirty` unset. -/
theorem C4_scm_resolution (fs : FS) (nm root : String) (i : Bool)
    (h : fs.pathExists root = true) :
    (fs.pathExists (joinPath root ".git") = true →
      (Project.load fs (Project.init fs nm root) i).2.scm = some "git" ∧
      (Project.load fs (Project.init fs nm root) i).2.is_dirty =
        some (!fs.gitPorcelainEmpty root)) ∧
    (fs.pathExists (joinPath root ".git") = false →
     fs.pathExists (joinPath root ".hg") = true →
      (Project.load fs (Project.init fs nm root) i).2.scm = some "hg" ∧
      (Project.load fs (Project.init fs nm root) i).2.is_dirty = none) ∧
    (fs.pathExists (joinPath root ".git") = false →
     fs.pathExists (joinPath root ".hg") = false →
     fs.pathExists (joinPath root "trunk") = true →
      (Project.load fs (Project.init fs nm root) i).2.scm = some "svn" ∧
      (Project.load fs (Project.init fs nm root) i).2.is_dirty = none) ∧
    (fs.pathExists (joinPath root ".git") = false →
     fs.pathExists (joinPath root ".hg") = false →
     fs.pathExists (joinPath root "trunk") = false →
      (Project.load fs (Project.init fs nm root) i).2.scm = some "None" ∧
      (Project.load fs (Project.init fs nm root) i).2.is_dirty = none) := by
  have hl := load_snd_char fs i (Project.init fs nm root) h
  rw [hl]
  refine ⟨fun hg => ?_, fun hg hh => ?_, fun hg hh ht => ?_, fun hg hh ht => ?_⟩
  · simp only [loadedForm, Project.init, hg]
    exact ⟨rfl, rfl⟩
  · simp only [loadedForm, Project.init, hg, hh]
    exact ⟨rfl, rfl⟩
  · simp only [loadedForm, Project.init, hg, hh, ht]
    exact ⟨rfl, rfl⟩
  · simp only [loadedForm, Project.init, hg, hh, ht]
    exact ⟨rfl, rfl⟩

/-- The filesystem of the C6 counterexample: a project directory without
a `project.ini` but with a `VERSION.txt`. -/
def fsC6 : FS :=
  { existing := ["w/beta", "w/beta/VERSION.txt"]
    dirs := ["w/beta"]
    listdir := fun _ => ["beta"]
    readFile := fun f => if f = "w/beta/VERSION.txt" then " 2.0.0\n" else ""
    projectIni := fun _ => none
    pkgConfig := fun _ => ⟨true, fun _ => []⟩
    gitPorcelainEmpty := fun _ => true
    du := fun _ => "1M" }

/-- C6 counterexample: a directory without `project.ini` but with a
`VERSION.txt` loads with `version = "2.0.0"`, not the `"0.1.0-d"` the
claim asserts for every directory without a `project.ini`. -/
theorem C6_counterexample :
    (fsC6.pathExists "w/beta/project.ini" = false) ∧
    ((Project.load fsC6 (Project.init fsC6 "beta" "w/beta") false).2.config_exists = false) ∧
    ((Project.load fsC6 (Project.init fsC6 "beta" "w/beta") false).2.version = "2.0.0") ∧
    ¬((Project.load fsC6 (Project.init fsC6 "beta" "w/beta") false).2.version = "0.1.0-d") := by
  decide

/-- C6 (amended): for every loaded project the version is the trimmed
`VERSION.txt` content when that file exists and `"0.1.0-d"` otherwise;
a directory without `project.ini` loads with the defaults
`config_exists = false`, `status = "unknown"`, `type = "project"`, and
`version = "0.1.0-d"` provided no `VERSION.txt` exists either. -/
theorem C6_version_and_defaults (fs : FS) (nm root : String) (i : Bool)
    (h : fs.pathExists root = true) :
    ((Project.load fs (Project.init fs nm root) i).2.version =
      (if fs.pathExists (joinPath root "VERSION.txt") then
        pyStrip (fs.readFile (joinPath root "VERSION.txt"))
       else "0.1.0-d")) ∧
    (fs.pathExists (joinPath root "project.ini") = false →
      (Project.load fs (Project.init fs nm root) i).2.config_exists = false ∧
      (Project.load fs (Project.init fs nm root) i).2.status = "unknown" ∧
      (Project.load fs (Project.init fs nm root) i).2.type = "project" ∧
      (fs.pathExists (joinPath root "VERSION.txt") = false →
        (Project.load fs (Project.init fs nm root) i).2.version = "0.1.0-d")) := by
  have hl := load_snd_char fs i (Project.init fs nm root) h
  rw [hl]
  constructor
  · simp only [loadedForm, Project.init]
  · intro hni
    have hiniOf : iniOf fs root = none := by
      unfold iniOf
      simp [hni]
    refine ⟨?_, ?_, ?_, fun hv => ?_⟩ <;>
      simp [loadedForm, Project.init, hiniOf, hni, *]

set_option maxRecDepth 8192 in
theorem loadedForm_idem (fs : FS) (i : Bool) (p : Project) :
    loadedForm fs i (loadedForm fs i p) = loadedForm fs i p := by
  apply Project.ext <;>
    simp only [loadedForm] <;>
    cases hini : iniOf fs p.root <;>
    (repeat' split) <;>
    first
    | rfl
    | simp_all

/-- C9: `load()` is idempotent — against the same filesystem, loading an
already-loaded project leaves every one of the claim's fields (title,
org, scm, is_dirty, version, disk, status, type, tags, config_exists,
is_loaded) unchanged. -/
theorem C9_load_idempotent (fs : FS) (p : Project) (i : Bool) :
    ((Project.load fs (Project.load fs p i).2 i).2.title = (Project.load fs p i).2.title) ∧
    ((Project.load fs (Project.load fs p i).2 i).2.org = (Project.load fs p i).2.org) ∧
    ((Project.load fs (Project.load fs p i).2 i).2.scm = (Project.load fs p i).2.scm) ∧
    ((Project.load fs (Project.load fs p i).2 i).2.is_dirty = (Project.load fs p i).2.is_dirty) ∧
    ((Project.load fs (Project.load fs p i).2 i).2.version = (Project.load fs p i).2.version) ∧
    ((Project.load fs (Project.load fs p i).2 i).2.disk = (Project.load fs p i).2.disk) ∧
    ((Project.load fs (Project.load fs p i).2 i).2.status = (Project.load fs p i).2.status) ∧
    ((Project.load fs (Project.load fs p i).2 i).2.type = (Project.load fs p i).2.type) ∧
    ((Project.load fs (Project.load fs p i).2 i).2.tags = (Project.load fs p i).2.tags) ∧
    ((Project.load fs (Project.load fs p i).2 i).2.config_exists
      = (Project.load fs p i).2.config_exists) ∧
    ((Project.load fs (Project.load fs p i).2 i).2.is_loaded
      = (Project.load fs p i).2.is_loaded) := by
  by_cases h : fs.pathExists p.root = true
  · have h1 := load_snd_char fs i p h
    have hroot2 : fs.pathExists (Project.load fs p i).2.root = true := by
      rw [h1]
      exact h
    have h2 := load_snd_char fs i (Project.load fs p i).2 hroot2
    rw [h2, h1, loadedForm_idem]
    exact ⟨rfl, rfl, rfl, rfl, rfl, rfl, rfl, rfl, rfl, rfl, rfl⟩
  · have hfalse : fs.pathExists p.root = false := by
      simpa using h
    have e1 := load_root_missing fs p i hfalse
    have hroot2 : fs.pathExists (Project.load fs p i).2.root = false := by
      rw [e1]
      exact hfalse
    have e2 := load_root_missing fs (Project.load fs p i).2 i hroot2
    rw [e2, e1]
    exact ⟨rfl, rfl, rfl, rfl, rfl, rfl, rfl, rfl, rfl, rfl, rfl⟩

theorem get_projects_go_append (fs : FS) (path : String) (criteria : List (String × PyVal))
    (i s : Bool) (entries names : List String) (acc1 acc2 : List Project) :
    get_projects_go fs path criteria i s entries names (acc1 ++ acc2) =
      acc1 ++ get_projects_go fs path criteria i s entries names acc2 := by
  induction entries generalizing acc2 with
  | nil => simp [get_projects_go]
  | cons e rest ih =>
    simp only [get_projects_go]
    by_cases c1 : fs.isDir (joinPath path e) <;>
    by_cases c2 : e ∈ names <;>
    by_cases c3 : (!((Project.init fs e (joinPath path e)).load fs i).2.config_exists
      && !s) = true <;>
    by_cases c4 : criteria.isEmpty <;>
    simp [c1, c2, c3, c4] <;>
    exact ih _

theorem get_projects_go_acc (fs : FS) (path : String) (criteria : List (String × PyVal))
    (i s : Bool) (entries names : List String) (acc : List Project) :
    get_projects_go fs path criteria i s entries names acc =
      acc ++ get_projects_go fs path criteria i s entries names [] := by
  have h := get_projects_go_append fs path criteria i s entries names acc []
  rwa [List.append_nil] at h

/-- The projects that pass `get_projects`' visibility filter: one loaded
project per directory entry that is a directory and either has a
`project.ini` or is forced in by `show_all`. -/
def visibleProjects (fs : FS) (path : String) (include_disk show_all : Bool) : List Project :=
  (fs.listdir path).filterMap (fun e =>
    if fs.isDir (joinPath path e) then
      (if !((Project.init fs e (joinPath path e)).load fs include_disk).2.config_exists
          && !show_all then none
       else some ((Project.init fs e (joinPath path e)).load fs include_disk).2)
    else none)

theorem get_projects_go_criteria (fs : FS) (path : String)
    (criteria : List (String × PyVal)) (i s : Bool) (h : criteria ≠ [])
    (entries : List String) :
    get_projects_go fs path criteria i s entries [] [] =
      (entries.filterMap (fun e =>
        if fs.isDir (joinPath path e) then
          (if !((Project.init fs e (joinPath path e)).load fs i).2.config_exists
              && !s then none
           else some ((Project.init fs e (joinPath path e)).load fs i).2)
        else none)).flatMap
        (fun pr =>
          List.replicate (criteria.countP (fun c => pr.getattr c.1 == some c.2)) pr) := by
  have hc4 : criteria.isEmpty = false := by
    cases criteria with
    | nil => exact absurd rfl h
    | cons a as => rfl
  induction entries with
  | nil => rfl
  | cons e rest ih =>
    simp only [get_projects_go, List.filterMap_cons]
    by_cases c1 : fs.isDir (joinPath path e) <;>
    by_cases c3 : (!((Project.init fs e (joinPath path e)).load fs i).2.config_exists
      && !s) = true
    · simp [c1, c3, ih]
    · simp only [c1, c3, hc4, Bool.false_eq_true, if_false, ite_true, ite_false,
        Bool.not_true, List.contains, List.elem_nil, List.nil_append, List.flatMap_cons]
      rw [get_projects_go_acc, ih, List.map_const', List.countP_eq_length_filter]
    · simp [c1, c3, ih]
    · simp [c1, c3, ih]

/-- C1: with a non-empty criteria mapping, every project passing the
visibility filter is appended once per criterion field whose value equals
the project's attribute (so OR-semantics across criteria, and a project
matching k criteria appears k times); the criteria fields are restricted
to existing attributes, where Python's `getattr` does not raise. -/
theorem C1_criteria_multiplicity (fs : FS) (path : String)
    (criteria : List (String × PyVal)) (i s : Bool) (h : criteria ≠ [])
    (_hv : ∀ c ∈ criteria, c.1 ∈ validFields) :
    get_projects fs path criteria i s =
      (visibleProjects fs path i s).flatMap
        (fun pr =>
          List.replicate (criteria.countP (fun c => pr.getattr c.1 == some c.2)) pr) := by
  rw [get_projects, visibleProjects]
  exact get_projects_go_criteria fs path criteria i s h (fs.listdir path)

/-- A concrete two-project tree for exercising criteria filtering:
`alpha` has a `project.ini` with `status = active`, `beta` has none. -/
def fsC1 : FS :=
  { existing := ["w/alpha", "w/alpha/project.ini", "w/beta"]
    dirs := ["w/alpha", "w/beta"]
    listdir := fun d => if d = "w" then ["alpha", "beta"] else []
    readFile := fun _ => ""
    projectIni := fun f =>
      if f = "w/alpha/project.ini" then
        some ⟨none, none, some "active", none, none, none, none⟩
      else none
    pkgConfig := fun _ => ⟨true, fun _ => []⟩
    gitPorcelainEmpty := fun _ => true
    du := fun _ => "1M" }

theorem C1_witness :
    ([("status", PyVal.pyStr "active")] ≠ ([] : List (String × PyVal))) ∧
    (∀ c ∈ [("status", PyVal.pyStr "active")], c.1 ∈ validFields) ∧
    get_projects fsC1 "w" [("status", PyVal.pyStr "active")] false false =
      (visibleProjects fsC1 "w" false false).flatMap
        (fun pr =>
          List.replicate
            (([("status", PyVal.pyStr "active")]).countP
              (fun c => pr.getattr c.1 == some c.2)) pr) :=
  ⟨by decide, by decide,
    C1_criteria_multiplicity fsC1 "w" [("status", PyVal.pyStr "active")] false false
      (by decide) (by decide)⟩

/-- A concrete project whose `project.ini` attaches a `client` section
with code "ACME". -/
def fsC3 : FS :=
  { existing := ["w/a", "w/a/project.ini"]
    dirs := ["w/a"]
    listdir := fun _ => ["a"]
    readFile := fun _ => ""
    projectIni := fun f =>
      if f = "w/a/project.ini" then
        some ⟨none, none, some "active", none, none, some ⟨some "ACME"⟩, none⟩
      else none
    pkgConfig := fun _ => ⟨true, fun _ => []⟩
    gitPorcelainEmpty := fun _ => true
    du := fun _ => "1M" }

theorem C3_witness :
    (fsC3.pathExists (Project.init fsC3 "a" "w/a").root = true) ∧
    ((Project.load fsC3 (Project.init fsC3 "a" "w/a") false).2.org =
      (match (Project.load fsC3 (Project.init fsC3 "a" "w/a") false).2.client with
       | some obj =>
         (match obj.code with
          | some c => c
          | none => "Unidentified")
       | none =>
         match (Project.load fsC3 (Project.init fsC3 "a" "w/a") false).2.business with
         | some obj =>
           (match obj.code with
            | some c => c
            | none => "Internal")
         | none => "Unknown")) :=
  ⟨by decide, C3_org_three_tier fsC3 (Project.init fsC3 "a" "w/a") false (by decide)⟩

/-- A concrete git project with a dirty working tree. -/
def fsC4 : FS :=
  { existing := ["w/a", "w/a/.git"]
    dirs := ["w/a"]
    listdir := fun _ => ["a"]
    readFile := fun _ => ""
    projectIni := fun _ => none
    pkgConfig := fun _ => ⟨true, fun _ => []⟩
    gitPorcelainEmpty := fun _ => false
    du := fun _ => "1M" }

theorem C4_witness :
    (fsC4.pathExists "w/a" = true) ∧
    (fsC4.pathExists (joinPath "w/a" ".git") = true) ∧
    ((Project.load fsC4 (Project.init fsC4 "a" "w/a") false).2.scm = some "git" ∧
     (Project.load fsC4 (Project.init fsC4 "a" "w/a") false).2.is_dirty =
       some (!fsC4.gitPorcelainEmpty "w/a")) :=
  ⟨by decide, by decide,
    (C4_scm_resolution fsC4 "a" "w/a" false (by decide)).1 (by decide)⟩

/-- An empty filesystem: no project root and no autoload candidate
exists. -/
def fsC5 : FS :=
  { existing := []
    dirs := []
    listdir := fun _ => []
    readFile := fun _ => ""
    projectIni := fun _ => none
    pkgConfig := fun _ => ⟨true, fun _ => []⟩
    gitPorcelainEmpty := fun _ => true
    du := fun _ => "1M" }

theorem C5_witness :
    (Project.load fsC5 (Project.init fsC5 "x" "w/x") false =
      (false, { Project.init fsC5 "x" "w/x" with is_loaded := false }) ∧
     (Project.load fsC5 (Project.init fsC5 "x" "w/x") false).2.is_loaded = false) ∧
    (autoload_project fsC5 "My Project" false "w" = none) :=
  ⟨(C5_absence_is_soft fsC5 (Project.init fsC5 "x" "w/x") false false "My Project" "w").1
      (by decide),
   (C5_absence_is_soft fsC5 (Project.init fsC5 "x" "w/x") false false "My Project" "w").2
      (by decide)⟩

/-- A bare project directory: no `project.ini`, no `VERSION.txt`. -/
def fsC6w : FS :=
  { existing := ["w/beta"]
    dirs := ["w/beta"]
    listdir := fun _ => ["beta"]
    readFile := fun _ => ""
    projectIni := fun _ => none
    pkgConfig := fun _ => ⟨true, fun _ => []⟩
    gitPorcelainEmpty := fun _ => true
    du := fun _ => "1M" }

theorem C6_witness :
    ((Project.load fsC6w (Project.init fsC6w "beta" "w/beta") false).2.version =
      (if fsC6w.pathExists (joinPath "w/beta" "VERSION.txt") then
        pyStrip (fsC6w.readFile (joinPath "w/beta" "VERSION.txt"))
       else "0.1.0-d")) ∧
    ((Project.load fsC6w (Project.init fsC6w "beta" "w/beta") false).2.config_exists = false) ∧
    ((Project.load fsC6w (Project.init fsC6w "beta" "w/beta") false).2.status = "unknown") ∧
    ((Project.load fsC6w (Project.init fsC6w "beta" "w/beta") false).2.type = "project") ∧
    ((Project.load fsC6w (Project.init fsC6w "beta" "w/beta") false).2.version = "0.1.0-d") := by
  have T := C6_version_and_defaults fsC6w "beta" "w/beta" false (by decide)
  have T2 := T.2 (by decide)
  exact ⟨T.1, T2.1, T2.2.1, T2.2.2.1, T2.2.2.2 (by decide)⟩
